import Mathlib

/-!
Shallow embedding of `src/src/framing/src/framesync64.c` (liquid-dsp basic
frame synchronizer).

The file embeds the receiver state machine of `framesync64.c`: the object
structure `struct framesync64_s`, the reset/create functions, the per-sample
dispatch `framesync64_execute`, and the three state handlers
(`framesync64_execute_seekpn`, `framesync64_execute_rxpreamble`,
`framesync64_execute_rxpayload`) together with the shared per-symbol step
`framesync64_step`.

The DSP primitives the synchronizer drives (`qdetector_cccf`, `firpfb_crcf`,
`nco_crcf`, `qpacketmodem`, `qpilotsync`, `log10f`) are not part of the
source file under verification; they are external collaborators.  They are
modelled from the specification's interface contracts, parametrically over
the sample type `A` and over an `Oracle` record of oracle functions, so every
theorem below holds for every behaviour of the external primitives.

Machine integers: all counters in the C source are `unsigned int`; they are
embedded as `Nat`.  None of the counter arithmetic in the source can reach
`2 ^ 32` (counters are bounded by 630 and reduced `% 2`), so no overflow
reduction is needed.  Analog values (estimates, NCO frequency and phase,
filter scale) are carried as `ℚ`; the control flow of the source never
branches on them, so their exact arithmetic is irrelevant to the claims and
only their dataflow is verified.
-/

/-- Receiver state, mirroring the anonymous enum inside `struct framesync64_s`
(`FRAMESYNC64_STATE_DETECTFRAME`, `..._RXPREAMBLE`, `..._RXPAYLOAD`). -/
inductive FState
  | detect
  | rxPreamble
  | rxPayload
deriving DecidableEq, Repr

/-- Modulation scheme tag (the subset of the `LIQUID_MODEM_*` enum used by
`framesync64.c`, plus one other value so the type is not a singleton). -/
inductive ModScheme
  | qpsk
  | bpsk
deriving DecidableEq, Repr

/-- Data-integrity check tag (`LIQUID_CRC_*`). -/
inductive CrcScheme
  | crc24
  | crc32
deriving DecidableEq, Repr

/-- Forward error correction scheme tag (`LIQUID_FEC_*`). -/
inductive FecScheme
  | fecNone
  | golay2412
  | hamming74
deriving DecidableEq, Repr

variable {A : Type}

/-- Coarse estimates produced by the detector at trigger time
(`tau_hat`, `gamma_hat`, `dphi_hat`, `phi_hat`). -/
structure Est where
  tau : ℚ
  gamma : ℚ
  dphi : ℚ
  phi : ℚ
deriving DecidableEq, Repr

/-- Frame statistics (`framesyncstats_s`), restricted to the fields that
`framesync64.c` writes. -/
structure FrameStats (A : Type) where
  evm : ℚ
  rssi : ℚ
  cfo : ℚ
  framesyms : List A
  numFramesyms : Nat
  modScheme : ModScheme
  modBps : Nat
  check : CrcScheme
  fec0 : FecScheme
  fec1 : FecScheme
deriving DecidableEq, Repr

/-- Modelled from the spec: the `nco_crcf` primitive (`set_frequency(ω)`,
`set_phase(θ)`, `mix_down`, `step`, `reset`, `get_frequency() → ω`).  The
state is the configured frequency and the current phase; `step` advances the
phase by the configured frequency; the mix-down output itself is delegated to
the external oracle `Oracle.mix`. -/
structure Nco where
  freq : ℚ
  phase : ℚ
deriving DecidableEq, Repr

/-- Advance the NCO by its configured frequency (`nco_crcf_step`). -/
def Nco.step (n : Nco) : Nco :=
  { freq := n.freq, phase := n.phase + n.freq }

/-- Reset the NCO (`nco_crcf_reset`): frequency and phase return to zero. -/
def Nco.reset (_n : Nco) : Nco :=
  { freq := 0, phase := 0 }

/-- The last `n` elements of a list (used for fixed-capacity delay lines and
sample windows). -/
def lastN (n : Nat) (l : List A) : List A :=
  l.drop (l.length - n)

/-- Modelled from the spec: the `firpfb_crcf` polyphase matched-filter bank
(`push(sample)`, `execute(phase_index) → sample`, `set_scale(s)`, `reset()`).
The state is the output scale and a finite delay line of the most recent
`wlen` pushed samples; the filter output itself is delegated to the external
oracle `Oracle.mfOut`. -/
structure Mf (A : Type) where
  scale : ℚ
  wlen : Nat
  hist : List A
deriving DecidableEq, Repr

/-- Push a sample into the filterbank delay line (`firpfb_crcf_push`). -/
def Mf.push (m : Mf A) (x : A) : Mf A :=
  { scale := m.scale, wlen := m.wlen, hist := lastN m.wlen (m.hist ++ [x]) }

/-- Reset the filterbank delay line (`firpfb_crcf_reset`). -/
def Mf.reset (m : Mf A) : Mf A :=
  { scale := m.scale, wlen := m.wlen, hist := [] }

/-- Modelled from the spec: the `qdetector_cccf` pre-demod detector.  It
accumulates the most recent `cap` input samples in an internal buffer;
whether a given buffer content constitutes a detection, and the coarse
estimates reported by the getter functions at that point, are delegated to
the external oracle `Oracle.detTrig`.  `reset` clears the accumulation. -/
structure Detector (A : Type) where
  buf : List A
  cap : Nat
deriving DecidableEq, Repr

/-- Accumulate one sample into the detector buffer. -/
def Detector.push (d : Detector A) (x : A) : Detector A :=
  { buf := lastN d.cap (d.buf ++ [x]), cap := d.cap }

/-- Reset the detector (`qdetector_cccf_reset`): clears the accumulation. -/
def Detector.reset (d : Detector A) : Detector A :=
  { buf := [], cap := d.cap }

/-- Modelled from the spec: the oracles for the external DSP primitives,
parametric over the sample type `A`.  Every theorem quantifies over this
record, so the results hold for every behaviour of the external blocks.
The detector's getter functions are bundled with the trigger result:
`detTrig` maps the accumulated buffer either to `none` (no detection) or to
the four coarse estimates the getters would report. -/
structure Oracle (A : Type) where
  mix : ℚ → A → A
  mfOut : ℚ → List A → Nat → A
  detTrig : List A → Option Est
  pilotsyncExec : List A → List A
  decode : List A → List Nat × Bool
  log10 : ℚ → ℚ

/-- One callback invocation, recording the arguments `framesync64.c` passes
to the user callback (header bytes, header-valid flag, payload bytes,
payload length, payload-valid flag, statistics). -/
structure FrameEvent (A : Type) where
  header : List Nat
  headerValid : Bool
  payload : List Nat
  payloadLen : Nat
  payloadValid : Bool
  stats : FrameStats A
deriving DecidableEq, Repr

/-- The receiver object `struct framesync64_s`.  The callback pointer is
modelled by the flag `callbackSet` (is it non-NULL?) together with the list
of `FrameEvent`s an execution emits; the `userdata` pointer is opaque to the
synchronizer and is not modelled.  Fields that the C source leaves
uninitialized at `create` (for example `mf_counter`) are ordinary fields
whose creation-time content is supplied by an `Uninit` record. -/
structure Sync (A : Type) where
  callbackSet : Bool
  framestats : FrameStats A
  detector : Detector A
  tauHat : ℚ
  dphiHat : ℚ
  phiHat : ℚ
  gammaHat : ℚ
  mixer : Nco
  mf : Mf A
  npfb : Nat
  mfCounter : Nat
  pfbIndex : Nat
  preamblePn : List A
  preambleRx : List A
  payloadRx : List A
  payloadSym : List A
  payloadDec : List Nat
  payloadValid : Bool
  state : FState
  preambleCounter : Nat
  payloadCounter : Nat
  debugEnabled : Bool
  debugX : List A
deriving DecidableEq, Repr

/-- Creation-time content of the struct fields that `framesync64_create`
never writes (the C source `malloc`s the struct and leaves them
indeterminate until first use). -/
structure Uninit (A : Type) where
  framestats : FrameStats A
  tauHat : ℚ
  dphiHat : ℚ
  phiHat : ℚ
  gammaHat : ℚ
  mfCounter : Nat
  pfbIndex : Nat
  preambleRx : List A
  payloadRx : List A
  payloadSym : List A
  payloadDec : List Nat
  payloadValid : Bool

/-- `framesync64_reset`: reset the detector, NCO and matched filter, return
the state to `DETECT`, clear `preamble_counter` and `payload_counter`, and
zero `framestats.evm`.  (The C source does not touch `mf_counter`,
`pfb_index`, the estimates or the data buffers here.) -/
def framesync64_reset (q : Sync A) : Sync A :=
  { q with
    detector := q.detector.reset,
    mixer := q.mixer.reset,
    mf := q.mf.reset,
    state := FState.detect,
    preambleCounter := 0,
    payloadCounter := 0,
    framestats := { q.framestats with evm := 0 } }

/-- `framesync64_create`: build the object (callback flag, p/n sequence,
fresh detector of capacity `cap`, matched filter with delay line length
`wlen`, `npfb = 32`, debugging off) and call `framesync64_reset`.  The
`Uninit` record supplies the indeterminate content of the fields the C
source never initializes. -/
def framesync64_create (u : Uninit A) (cb : Bool) (pn : List A)
    (cap wlen : Nat) : Sync A :=
  framesync64_reset
    { callbackSet := cb,
      framestats := u.framestats,
      detector := { buf := [], cap := cap },
      tauHat := u.tauHat,
      dphiHat := u.dphiHat,
      phiHat := u.phiHat,
      gammaHat := u.gammaHat,
      mixer := { freq := 0, phase := 0 },
      mf := { scale := 1, wlen := wlen, hist := [] },
      npfb := 32,
      mfCounter := u.mfCounter,
      pfbIndex := u.pfbIndex,
      preamblePn := pn,
      preambleRx := u.preambleRx,
      payloadRx := u.payloadRx,
      payloadSym := u.payloadSym,
      payloadDec := u.payloadDec,
      payloadValid := u.payloadValid,
      state := FState.detect,
      preambleCounter := 0,
      payloadCounter := 0,
      debugEnabled := false,
      debugX := [] }

/-- `framesync64_step`: mix the sample down with the NCO's current phase and
advance the NCO, push the result into the filterbank and read the output at
`pfb_index`, increment `mf_counter`, report a symbol available exactly when
`mf_counter` reaches 1, and reduce `mf_counter` modulo `k = 2`.  The output
symbol is returned as `some` exactly when the availability flag is set (the
C source writes `*_y` only in that case). -/
def framesync64_step (ext : Oracle A) (q : Sync A) (x : A) : Sync A × Option A :=
  let v := ext.mix q.mixer.phase x
  let mf2 := q.mf.push v
  let v2 := ext.mfOut mf2.scale mf2.hist q.pfbIndex
  ({ q with
     mixer := q.mixer.step,
     mf := mf2,
     mfCounter := (q.mfCounter + 1) % 2 },
   if q.mfCounter + 1 = 1 then some v2 else none)

/-- `framesync64_execute_rxpreamble`: run the per-symbol step; on each
available symbol, store it at index `preamble_counter - 2*m` (m = 3) when
`preamble_counter >= 2*m`, increment `preamble_counter`, and transition to
`RX_PAYLOAD` exactly when `preamble_counter == 64 + 2*m`. -/
def framesync64_execute_rxpreamble (ext : Oracle A) (q : Sync A) (x : A) :
    Sync A :=
  match framesync64_step ext q x with
  | (q1, none) => q1
  | (q1, some y) =>
    let q2 := if 2 * 3 ≤ q1.preambleCounter then
        { q1 with preambleRx := q1.preambleRx.set (q1.preambleCounter - 2 * 3) y }
      else q1
    let q3 := { q2 with preambleCounter := q2.preambleCounter + 1 }
    if q3.preambleCounter = 64 + 2 * 3 then { q3 with state := FState.rxPayload }
    else q3

/-- `framesync64_execute_rxpayload`: run the per-symbol step; on each
available symbol, store it at `payload_rx[payload_counter]` and increment
the counter.  When the counter reaches 630: run the pilot synchronizer, run
the packet decoder, and — if the callback is non-NULL — populate the frame
statistics and invoke the callback with the first 8 decoded bytes as header,
the last 64 as payload, length 64, and both validity flags equal to the
payload CRC result; finally reset the synchronizer. -/
def framesync64_execute_rxpayload (ext : Oracle A) (q : Sync A) (x : A) :
    Sync A × List (FrameEvent A) :=
  match framesync64_step ext q x with
  | (q1, none) => (q1, [])
  | (q1, some y) =>
    let q2 := { q1 with
                payloadRx := q1.payloadRx.set q1.payloadCounter y,
                payloadCounter := q1.payloadCounter + 1 }
    if q2.payloadCounter = 630 then
      let psym := ext.pilotsyncExec q2.payloadRx
      let dec := ext.decode psym
      let q3 := { q2 with
                  payloadSym := psym,
                  payloadDec := dec.1,
                  payloadValid := dec.2 }
      if q3.callbackSet then
        let stats : FrameStats A :=
          { evm := 0,
            rssi := 20 * ext.log10 q3.gammaHat,
            cfo := q3.mixer.freq,
            framesyms := psym,
            numFramesyms := 600,
            modScheme := ModScheme.qpsk,
            modBps := 2,
            check := CrcScheme.crc24,
            fec0 := FecScheme.fecNone,
            fec1 := FecScheme.golay2412 }
        let q4 := { q3 with framestats := stats }
        let ev : FrameEvent A :=
          { header := dec.1.take 8,
            headerValid := dec.2,
            payload := dec.1.drop 8,
            payloadLen := 64,
            payloadValid := dec.2,
            stats := stats }
        (framesync64_reset q4, [ev])
      else (framesync64_reset q3, [])
    else (q2, [])

/-- The debug-ring push at the top of `framesync64_execute`'s loop body:
when debugging is enabled, the raw input sample is pushed into the
1600-deep `windowcf` ring. -/
def windowPush (q : Sync A) (x : A) : Sync A :=
  if q.debugEnabled then { q with debugX := lastN 1600 (q.debugX ++ [x]) }
  else q

/-- The detection branch of `framesync64_execute_seekpn` up to (and
including) the state update, but before the replay of the detector's
buffered samples.  Pushes the sample into the detector; on trigger it reads
the four coarse estimates, sets the matched filter scale to
`0.5 / gamma_hat`, sets `pfb_index` to 0 unconditionally, sets the NCO
frequency to `dphi_hat` and phase to `phi_hat`, and moves to
`RX_PREAMBLE`.  Returns the buffer of samples the detector asks to have
replayed (empty when no detection occurred). -/
def seekpnHandoff (ext : Oracle A) (q : Sync A) (x : A) : Sync A × List A :=
  let d2 := q.detector.push x
  let q1 := { q with detector := d2 }
  match ext.detTrig d2.buf with
  | none => (q1, [])
  | some est =>
    ({ q1 with
       tauHat := est.tau,
       gammaHat := est.gamma,
       dphiHat := est.dphi,
       phiHat := est.phi,
       mf := { scale := (1 / 2 : ℚ) / est.gamma, wlen := q1.mf.wlen,
               hist := q1.mf.hist },
       pfbIndex := 0,
       mixer := { freq := est.dphi, phase := est.phi },
       state := FState.rxPreamble },
     d2.buf)

/-- One iteration of the `framesync64_execute` loop body at recursion depth
two and beyond: debug-ring push followed by the dispatch on the current
state.  The recursive replay inside the detect branch is cut off here; the
development proves (claim C6) that from every reachable configuration this
branch is never taken during a replay, because the detector's buffer is
shorter than the 1399 samples a full frame needs, so the cut is
behaviourally invisible. -/
def dispatch0 (ext : Oracle A) (q : Sync A) (x : A) :
    Sync A × List (FrameEvent A) :=
  let q0 := windowPush q x
  match q0.state with
  | FState.detect => ((seekpnHandoff ext q0 x).1, [])
  | FState.rxPreamble => (framesync64_execute_rxpreamble ext q0 x, [])
  | FState.rxPayload => framesync64_execute_rxpayload ext q0 x

/-- Run a list of samples through `dispatch0`, concatenating the emitted
callback events.  This is the semantics of the recursive
`framesync64_execute` call that replays the detector's buffered samples. -/
def run0 (ext : Oracle A) (q : Sync A) : List A → Sync A × List (FrameEvent A)
  | [] => (q, [])
  | x :: xs =>
    let r1 := dispatch0 ext q x
    let r2 := run0 ext r1.1 xs
    (r2.1, r1.2 ++ r2.2)

/-- `framesync64_execute_seekpn`: the detection hand-off followed by the
replay of the detector's buffered samples through the execute path (the C
source calls `framesync64_execute` recursively; the state is already
`RX_PREAMBLE` at that point). -/
def framesync64_execute_seekpn (ext : Oracle A) (q : Sync A) (x : A) :
    Sync A × List (FrameEvent A) :=
  let r := seekpnHandoff ext q x
  run0 ext r.1 r.2

/-- One iteration of the top-level `framesync64_execute` loop body:
debug-ring push, then dispatch on the current state (the detect branch
includes the recursive replay). -/
def dispatch1 (ext : Oracle A) (q : Sync A) (x : A) :
    Sync A × List (FrameEvent A) :=
  let q0 := windowPush q x
  match q0.state with
  | FState.detect => framesync64_execute_seekpn ext q0 x
  | FState.rxPreamble => (framesync64_execute_rxpreamble ext q0 x, [])
  | FState.rxPayload => framesync64_execute_rxpayload ext q0 x

/-- `framesync64_execute`: consume the input samples in order, returning the
final synchronizer and the callback invocations in emission order. -/
def framesync64_execute (ext : Oracle A) (q : Sync A) :
    List A → Sync A × List (FrameEvent A)
  | [] => (q, [])
  | x :: xs =>
    let r1 := dispatch1 ext q x
    let r2 := framesync64_execute ext r1.1 xs
    (r2.1, r1.2 ++ r2.2)


/-! ### Derived definitions used by the verification -/

/-- The matched-filter output used as the demodulated symbol in
`framesync64_step` (the value written to `*_y` when a symbol is
available). -/
def stepSym (ext : Oracle A) (q : Sync A) (x : A) : A :=
  ext.mfOut q.mf.scale (q.mf.push (ext.mix q.mixer.phase x)).hist q.pfbIndex

/-- The payload sample buffer just after the 630th symbol has been stored
(the argument handed to `qpilotsync_execute` at end of frame). -/
def finalPayloadRx (ext : Oracle A) (q : Sync A) (x : A) : List A :=
  q.payloadRx.set q.payloadCounter (stepSym ext q x)

/-- The frame statistics record populated immediately before the callback. -/
def finalStats (ext : Oracle A) (q : Sync A) (x : A) : FrameStats A :=
  { evm := 0,
    rssi := 20 * ext.log10 q.gammaHat,
    cfo := q.mixer.freq,
    framesyms := ext.pilotsyncExec (finalPayloadRx ext q x),
    numFramesyms := 600,
    modScheme := ModScheme.qpsk,
    modBps := 2,
    check := CrcScheme.crc24,
    fec0 := FecScheme.fecNone,
    fec1 := FecScheme.golay2412 }

/-- The callback event emitted at end of frame. -/
def finalEvent (ext : Oracle A) (q : Sync A) (x : A) : FrameEvent A :=
  { header := (ext.decode (ext.pilotsyncExec (finalPayloadRx ext q x))).1.take 8,
    headerValid := (ext.decode (ext.pilotsyncExec (finalPayloadRx ext q x))).2,
    payload := (ext.decode (ext.pilotsyncExec (finalPayloadRx ext q x))).1.drop 8,
    payloadLen := 64,
    payloadValid := (ext.decode (ext.pilotsyncExec (finalPayloadRx ext q x))).2,
    stats := finalStats ext q x }

/-- The allowed state-transition edges of the receiver cycle
DETECT → RX_PREAMBLE → RX_PAYLOAD → DETECT (self-loops included; the
RX_PAYLOAD → DETECT edge is the end-of-frame reset). -/
def edgeOK : FState → FState → Bool
  | FState.detect, FState.detect => true
  | FState.detect, FState.rxPreamble => true
  | FState.rxPreamble, FState.rxPreamble => true
  | FState.rxPreamble, FState.rxPayload => true
  | FState.rxPayload, FState.rxPayload => true
  | FState.rxPayload, FState.detect => true
  | _, _ => false

/-- Reachability invariant of the receiver: the counters agree with the
current state (established by `framesync64_create` and `framesync64_reset`,
preserved by every handler invocation). -/
def ReachInv (q : Sync A) : Prop :=
  (q.state = FState.detect → q.preambleCounter = 0 ∧ q.payloadCounter = 0) ∧
  (q.state = FState.rxPreamble → q.preambleCounter < 70 ∧ q.payloadCounter = 0) ∧
  (q.state = FState.rxPayload → q.preambleCounter = 70 ∧ q.payloadCounter < 630)

/-- Number of symbols the receiver has consumed since it entered
RX_PREAMBLE (the measure that reaches 70 + 630 = 700 exactly when a whole
frame has been received). -/
def prog (q : Sync A) : Nat :=
  if q.state = FState.rxPayload then 70 + q.payloadCounter
  else if q.state = FState.rxPreamble then q.preambleCounter
  else 0

/-- Invariant of the replay of detector-buffered samples: after `n`
replayed samples the receiver is still past DETECT and has consumed at most
about `n / 2` symbols (two consecutive samples never both yield a symbol). -/
def NDInv (q : Sync A) (n : Nat) : Prop :=
  q.state ≠ FState.detect ∧
  (q.state = FState.rxPreamble → q.payloadCounter = 0) ∧
  (if q.mfCounter = 0 then 2 * prog q ≤ n else 2 * prog q ≤ n + 1)

/-- Availability trace of the per-symbol step: the symbol-available flag
reported by `framesync64_step` on each successive input sample. -/
def stepRun (ext : Oracle A) (q : Sync A) : List A → List Bool
  | [] => []
  | x :: xs =>
    let r := framesync64_step ext q x
    r.2.isSome :: stepRun ext r.1 xs

/-! ### Concrete instances used to witness the theorems -/

/-- A concrete statistics record (creation-time garbage for the witnesses). -/
def statsZero : FrameStats Unit :=
  { evm := 0, rssi := 0, cfo := 0, framesyms := [], numFramesyms := 0,
    modScheme := ModScheme.bpsk, modBps := 0, check := CrcScheme.crc32,
    fec0 := FecScheme.hamming74, fec1 := FecScheme.hamming74 }

/-- Concrete creation-time content for the uninitialized struct fields. -/
def uninitZero : Uninit Unit :=
  { framestats := statsZero, tauHat := 0, dphiHat := 0, phiHat := 0,
    gammaHat := 0, mfCounter := 0, pfbIndex := 0,
    preambleRx := List.replicate 64 (), payloadRx := List.replicate 630 (),
    payloadSym := List.replicate 600 (), payloadDec := List.replicate 72 0,
    payloadValid := false }

/-- The estimate tuple reported by the concrete oracle `extU`. -/
def estU : Est :=
  { tau := 0, gamma := 1, dphi := 0, phi := 0 }

/-- A concrete oracle over the trivial sample type: the detector triggers on
every buffer content, the decoder always succeeds. -/
def extU : Oracle Unit :=
  { mix := fun _ _ => (),
    mfOut := fun _ _ _ => (),
    detTrig := fun _ => some estU,
    pilotsyncExec := fun _ => List.replicate 600 (),
    decode := fun _ => (List.replicate 72 0, true),
    log10 := fun _ => 0 }

/-- A concrete estimate tuple with a negative timing offset (used to witness
that `pfb_index` is set to 0 also for negative `tau_hat`). -/
def estNeg : Est :=
  { tau := -(1 / 2), gamma := 2, dphi := 3, phi := 5 }

/-- A concrete oracle whose detector reports a negative timing estimate. -/
def extNeg : Oracle Unit :=
  { mix := fun _ _ => (),
    mfOut := fun _ _ _ => (),
    detTrig := fun _ => some estNeg,
    pilotsyncExec := fun _ => List.replicate 600 (),
    decode := fun _ => (List.replicate 72 0, false),
    log10 := fun _ => 0 }

/-- A freshly created concrete receiver (callback set, detector capacity 0,
matched-filter delay line length 0). -/
def syncInit : Sync Unit :=
  framesync64_create uninitZero true (List.replicate 64 ()) 0 0

/-- A concrete receiver one symbol away from completing a frame. -/
def syncPay : Sync Unit :=
  { syncInit with
    state := FState.rxPayload,
    preambleCounter := 70,
    payloadCounter := 629,
    mfCounter := 0 }

/-- A concrete receiver in the middle of preamble reception. -/
def syncPre : Sync Unit :=
  { syncInit with
    state := FState.rxPreamble,
    preambleCounter := 6,
    mfCounter := 0 }


/-! ### Equation lemmas for the embedded functions -/

theorem windowPush_eq (q : Sync A) (x : A) :
    windowPush q x =
      { q with debugX :=
          if q.debugEnabled then lastN 1600 (q.debugX ++ [x]) else q.debugX } := by
  rcases q with ⟨cb, fs, det, tau, dphi, phi, gam, mx, mf, npfb, mfc, pfb, pn,
    prx, parx, psym, pdec, pv, st, pc, payc, dbg, dx⟩
  by_cases h : dbg <;> simp [windowPush, h]


theorem step_eq (ext : Oracle A) (q : Sync A) (x : A) :
    framesync64_step ext q x =
      ({ q with
         mixer := q.mixer.step,
         mf := q.mf.push (ext.mix q.mixer.phase x),
         mfCounter := (q.mfCounter + 1) % 2 },
       if q.mfCounter + 1 = 1 then some (stepSym ext q x) else none) := rfl

theorem rxpre_none (ext : Oracle A) (q : Sync A) (x : A)
    (h : q.mfCounter ≠ 0) :
    framesync64_execute_rxpreamble ext q x =
      { q with
        mixer := q.mixer.step,
        mf := q.mf.push (ext.mix q.mixer.phase x),
        mfCounter := (q.mfCounter + 1) % 2 } := by
  have h1 : ¬ (q.mfCounter + 1 = 1) := by omega
  simp [framesync64_execute_rxpreamble, step_eq, h1]

theorem rxpre_some (ext : Oracle A) (q : Sync A) (x : A)
    (h : q.mfCounter = 0) :
    framesync64_execute_rxpreamble ext q x =
      { q with
        mixer := q.mixer.step,
        mf := q.mf.push (ext.mix q.mixer.phase x),
        mfCounter := 1,
        preambleRx :=
          if 2 * 3 ≤ q.preambleCounter then
            q.preambleRx.set (q.preambleCounter - 2 * 3) (stepSym ext q x)
          else q.preambleRx,
        preambleCounter := q.preambleCounter + 1,
        state :=
          if q.preambleCounter + 1 = 64 + 2 * 3 then FState.rxPayload
          else q.state } := by
  simp only [framesync64_execute_rxpreamble, step_eq, h]
  norm_num
  split <;> split <;> rfl

theorem rxpay_none (ext : Oracle A) (q : Sync A) (x : A)
    (h : q.mfCounter ≠ 0) :
    framesync64_execute_rxpayload ext q x =
      ({ q with
         mixer := q.mixer.step,
         mf := q.mf.push (ext.mix q.mixer.phase x),
         mfCounter := (q.mfCounter + 1) % 2 }, []) := by
  have h1 : ¬ (q.mfCounter + 1 = 1) := by omega
  simp [framesync64_execute_rxpayload, step_eq, h1]

theorem rxpay_some_mid (ext : Oracle A) (q : Sync A) (x : A)
    (h : q.mfCounter = 0) (hc : q.payloadCounter + 1 ≠ 630) :
    framesync64_execute_rxpayload ext q x =
      ({ q with
         mixer := q.mixer.step,
         mf := q.mf.push (ext.mix q.mixer.phase x),
         mfCounter := 1,
         payloadRx := q.payloadRx.set q.payloadCounter (stepSym ext q x),
         payloadCounter := q.payloadCounter + 1 }, []) := by
  simp only [framesync64_execute_rxpayload, step_eq, h]
  norm_num
  simp [hc]




theorem rxpay_some_done (ext : Oracle A) (q : Sync A) (x : A)
    (h : q.mfCounter = 0) (hc : q.payloadCounter = 629) :
    framesync64_execute_rxpayload ext q x =
      (framesync64_reset
        { q with
          mixer := q.mixer.step,
          mf := q.mf.push (ext.mix q.mixer.phase x),
          mfCounter := 1,
          payloadRx := finalPayloadRx ext q x,
          payloadCounter := q.payloadCounter + 1,
          payloadSym := ext.pilotsyncExec (finalPayloadRx ext q x),
          payloadDec := (ext.decode (ext.pilotsyncExec (finalPayloadRx ext q x))).1,
          payloadValid := (ext.decode (ext.pilotsyncExec (finalPayloadRx ext q x))).2,
          framestats :=
            if q.callbackSet then finalStats ext q x else q.framestats },
       if q.callbackSet then [finalEvent ext q x] else []) := by
  simp only [framesync64_execute_rxpayload, step_eq, h]
  norm_num
  have h630 : q.payloadCounter + 1 = 630 := by omega
  by_cases hcb : q.callbackSet <;>
    simp [h630, hcb, finalPayloadRx, finalStats, finalEvent, stepSym, Nco.step]

theorem seekpn_handoff_none (ext : Oracle A) (q : Sync A) (x : A)
    (h : ext.detTrig (q.detector.push x).buf = none) :
    seekpnHandoff ext q x = ({ q with detector := q.detector.push x }, []) := by
  simp [seekpnHandoff, h]

theorem seekpn_handoff_some (ext : Oracle A) (q : Sync A) (x : A) (est : Est)
    (h : ext.detTrig (q.detector.push x).buf = some est) :
    seekpnHandoff ext q x =
      ({ q with
         detector := q.detector.push x,
         tauHat := est.tau,
         gammaHat := est.gamma,
         dphiHat := est.dphi,
         phiHat := est.phi,
         mf := { scale := (1 / 2 : ℚ) / est.gamma, wlen := q.mf.wlen,
                 hist := q.mf.hist },
         pfbIndex := 0,
         mixer := { freq := est.dphi, phase := est.phi },
         state := FState.rxPreamble },
       (q.detector.push x).buf) := by
  simp [seekpnHandoff, h]

theorem dispatch0_detect (ext : Oracle A) (q : Sync A) (x : A)
    (h : q.state = FState.detect) :
    dispatch0 ext q x = ((seekpnHandoff ext (windowPush q x) x).1, []) := by
  have hs : (windowPush q x).state = FState.detect := by
    rw [windowPush_eq]; exact h
  simp only [dispatch0]
  rw [hs]

theorem dispatch0_rxpre (ext : Oracle A) (q : Sync A) (x : A)
    (h : q.state = FState.rxPreamble) :
    dispatch0 ext q x = (framesync64_execute_rxpreamble ext (windowPush q x) x, []) := by
  have hs : (windowPush q x).state = FState.rxPreamble := by
    rw [windowPush_eq]; exact h
  simp only [dispatch0]
  rw [hs]

theorem dispatch0_rxpay (ext : Oracle A) (q : Sync A) (x : A)
    (h : q.state = FState.rxPayload) :
    dispatch0 ext q x = framesync64_execute_rxpayload ext (windowPush q x) x := by
  have hs : (windowPush q x).state = FState.rxPayload := by
    rw [windowPush_eq]; exact h
  simp only [dispatch0]
  rw [hs]

theorem dispatch1_detect (ext : Oracle A) (q : Sync A) (x : A)
    (h : q.state = FState.detect) :
    dispatch1 ext q x = framesync64_execute_seekpn ext (windowPush q x) x := by
  have hs : (windowPush q x).state = FState.detect := by
    rw [windowPush_eq]; exact h
  simp only [dispatch1]
  rw [hs]

theorem dispatch1_rxpre (ext : Oracle A) (q : Sync A) (x : A)
    (h : q.state = FState.rxPreamble) :
    dispatch1 ext q x = (framesync64_execute_rxpreamble ext (windowPush q x) x, []) := by
  have hs : (windowPush q x).state = FState.rxPreamble := by
    rw [windowPush_eq]; exact h
  simp only [dispatch1]
  rw [hs]

theorem dispatch1_rxpay (ext : Oracle A) (q : Sync A) (x : A)
    (h : q.state = FState.rxPayload) :
    dispatch1 ext q x = framesync64_execute_rxpayload ext (windowPush q x) x := by
  have hs : (windowPush q x).state = FState.rxPayload := by
    rw [windowPush_eq]; exact h
  simp only [dispatch1]
  rw [hs]

/-! ### Composition of executions -/

theorem run0_append (ext : Oracle A) (q : Sync A) (xs ys : List A) :
    run0 ext q (xs ++ ys) =
      ((run0 ext (run0 ext q xs).1 ys).1,
       (run0 ext q xs).2 ++ (run0 ext (run0 ext q xs).1 ys).2) := by
  induction xs generalizing q with
  | nil => simp [run0]
  | cons x xs ih => simp [run0, ih]

theorem execute_append (ext : Oracle A) (q : Sync A) (xs ys : List A) :
    framesync64_execute ext q (xs ++ ys) =
      ((framesync64_execute ext (framesync64_execute ext q xs).1 ys).1,
       (framesync64_execute ext q xs).2 ++
         (framesync64_execute ext (framesync64_execute ext q xs).1 ys).2) := by
  induction xs generalizing q with
  | nil => simp [framesync64_execute]
  | cons x xs ih => simp [framesync64_execute, ih]

/-- Every top-level loop iteration is a sequence of `dispatch0` steps: the
detect branch with a triggering sample equals one `dispatch0` step followed
by the replay of the detector buffer, and the other branches are a single
`dispatch0` step. -/
theorem dispatch1_eq_run0 (ext : Oracle A) (q : Sync A) (x : A) :
    ∃ ys : List A, dispatch1 ext q x = run0 ext q (x :: ys) := by
  cases hst : q.state with
  | detect =>
    refine ⟨(seekpnHandoff ext (windowPush q x) x).2, ?_⟩
    rw [dispatch1_detect ext q x hst]
    simp only [run0, dispatch0_detect ext q x hst, framesync64_execute_seekpn,
      List.nil_append]
  | rxPreamble =>
    refine ⟨[], ?_⟩
    rw [dispatch1_rxpre ext q x hst]
    simp [run0, dispatch0_rxpre ext q x hst]
  | rxPayload =>
    refine ⟨[], ?_⟩
    rw [dispatch1_rxpay ext q x hst]
    simp [run0, dispatch0_rxpay ext q x hst]

/-- Every single handler invocation moves the state along an allowed edge of
the receiver cycle. -/
theorem dispatch0_edge (ext : Oracle A) (q : Sync A) (x : A) :
    edgeOK q.state (dispatch0 ext q x).1.state = true := by
  cases hst : q.state with
  | detect =>
    rw [dispatch0_detect ext q x hst]
    rcases htr : ext.detTrig ((windowPush q x).detector.push x).buf with _ | est
    · rw [seekpn_handoff_none ext (windowPush q x) x htr]
      simp [windowPush_eq, hst, edgeOK]
    · rw [seekpn_handoff_some ext (windowPush q x) x est htr]
      simp [edgeOK]
  | rxPreamble =>
    rw [dispatch0_rxpre ext q x hst]
    by_cases hmf : (windowPush q x).mfCounter = 0
    · rw [rxpre_some ext (windowPush q x) x hmf]
      simp only [windowPush_eq, hst]
      split <;> simp [edgeOK, hst]
    · rw [rxpre_none ext (windowPush q x) x hmf]
      simp [windowPush_eq, hst, edgeOK]
  | rxPayload =>
    rw [dispatch0_rxpay ext q x hst]
    by_cases hmf : (windowPush q x).mfCounter = 0
    · by_cases hc : (windowPush q x).payloadCounter = 629
      · rw [rxpay_some_done ext (windowPush q x) x hmf hc]
        simp [framesync64_reset, windowPush_eq, hst, edgeOK]
      · by_cases hc1 : (windowPush q x).payloadCounter + 1 = 630
        · omega
        · rw [rxpay_some_mid ext (windowPush q x) x hmf hc1]
          simp [windowPush_eq, hst, edgeOK]
    · rw [rxpay_none ext (windowPush q x) x hmf]
      simp [windowPush_eq, hst, edgeOK]

/-- C1: for every input sequence the state variable only takes values in
the three-element state type, every individual handler invocation
(`dispatch0`) moves the state only along the cycle
DETECT → RX_PREAMBLE → RX_PAYLOAD → DETECT (self-loops included, the last
edge being the end-of-frame reset), and every top-level `execute` iteration
(`dispatch1`, including the recursive replay of detector-buffered samples)
is a sequence of such handler invocations, so no state is skipped and no
back-transition occurs except via reset. -/
theorem C1_state_cycle :
    (∀ s : FState,
       s = FState.detect ∨ s = FState.rxPreamble ∨ s = FState.rxPayload) ∧
    (∀ (ext : Oracle A) (q : Sync A) (x : A),
       edgeOK q.state (dispatch0 ext q x).1.state = true) ∧
    (∀ (ext : Oracle A) (q : Sync A) (x : A),
       ∃ ys : List A, dispatch1 ext q x = run0 ext q (x :: ys)) := by
  refine ⟨?_, ?_, ?_⟩
  · intro s; cases s
    · exact Or.inl rfl
    · exact Or.inr (Or.inl rfl)
    · exact Or.inr (Or.inr rfl)
  · intro ext q x; exact dispatch0_edge ext q x
  · intro ext q x; exact dispatch1_eq_run0 ext q x

/-- C9: feeding a sample stream to `framesync64_execute` as two consecutive
calls with an arbitrary split point yields exactly the same outcome as a
single call: the same final receiver state (all fields, counters included)
and the same callback invocations in the same order. -/
theorem C9_split_equivalence (ext : Oracle A) (q : Sync A) (xs ys : List A) :
    framesync64_execute ext q (xs ++ ys) =
      ((framesync64_execute ext (framesync64_execute ext q xs).1 ys).1,
       (framesync64_execute ext q xs).2 ++
         (framesync64_execute ext (framesync64_execute ext q xs).1 ys).2) :=
  execute_append ext q xs ys

/-! ### The per-symbol step -/

theorem stepRun_length (ext : Oracle A) (q : Sync A) (xs : List A) :
    (stepRun ext q xs).length = xs.length := by
  induction xs generalizing q with
  | nil => rfl
  | cons x xs ih => simp [stepRun, ih]

theorem stepRun_get (ext : Oracle A) (xs : List A) :
    ∀ (q : Sync A), q.mfCounter < 2 →
      ∀ (i : Nat) (hi : i < (stepRun ext q xs).length),
        (stepRun ext q xs).get ⟨i, hi⟩ = decide ((q.mfCounter + i) % 2 = 0) := by
  induction xs with
  | nil =>
    intro q h2 i hi
    simp [stepRun] at hi
  | cons x xs ih =>
    intro q h2 i hi
    cases i with
    | zero =>
      have hg : (stepRun ext q (x :: xs)).get ⟨0, hi⟩ =
          (framesync64_step ext q x).2.isSome := rfl
      rw [hg, step_eq]
      by_cases hq : q.mfCounter = 0
      · simp [hq]
      · have h1 : q.mfCounter = 1 := by omega
        simp [h1]
    | succ n =>
      have hmf : (framesync64_step ext q x).1.mfCounter = (q.mfCounter + 1) % 2 := by
        rw [step_eq]
      have h2n : (framesync64_step ext q x).1.mfCounter < 2 := by
        rw [hmf]; omega
      have hi2 : n < (stepRun ext (framesync64_step ext q x).1 xs).length := by
        have h3 := hi
        simp only [stepRun, List.length_cons] at h3
        omega
      have hg : (stepRun ext q (x :: xs)).get ⟨n + 1, hi⟩ =
          (stepRun ext (framesync64_step ext q x).1 xs).get ⟨n, hi2⟩ := rfl
      rw [hg, ih (framesync64_step ext q x).1 h2n n hi2]
      rw [decide_eq_decide]
      rw [hmf]
      omega

/-- C3: the per-symbol step used by both RX_PREAMBLE and RX_PAYLOAD
increments `mf_counter`, reports a symbol available exactly when
`mf_counter` reaches 1, then reduces `mf_counter` modulo k = 2; hence,
starting from `mf_counter = 0`, a demodulated symbol is produced on the
first sample and on every other sample thereafter. -/
theorem C3_step (ext : Oracle A) (q : Sync A) (x : A) (xs : List A)
    (h : q.mfCounter = 0) :
    (framesync64_step ext q x).1.mfCounter = (q.mfCounter + 1) % 2 ∧
    ((framesync64_step ext q x).2.isSome = true ↔ q.mfCounter + 1 = 1) ∧
    ∀ (i : Nat) (hi : i < (stepRun ext q xs).length),
      (stepRun ext q xs).get ⟨i, hi⟩ = decide (i % 2 = 0) := by
  refine ⟨by rw [step_eq], ?_, ?_⟩
  · rw [step_eq]
    simp [h]
  · intro i hi
    rw [stepRun_get ext xs q (by omega) i hi, h]
    simp

/-- Witness for C3 at a concrete receiver and a four-sample input. -/
theorem C3_step_witness :
    syncInit.mfCounter = 0 ∧
    ((framesync64_step extU syncInit ()).1.mfCounter =
        (syncInit.mfCounter + 1) % 2 ∧
     ((framesync64_step extU syncInit ()).2.isSome = true ↔
        syncInit.mfCounter + 1 = 1) ∧
     ∀ (i : Nat) (hi : i < (stepRun extU syncInit (List.replicate 4 ())).length),
       (stepRun extU syncInit (List.replicate 4 ())).get ⟨i, hi⟩ =
         decide (i % 2 = 0)) :=
  ⟨by decide, C3_step extU syncInit () (List.replicate 4 ()) (by decide)⟩

/-! ### RX_PREAMBLE handler -/

/-- C4: in the RX_PREAMBLE state, on each available symbol the symbol is
stored at index `preamble_counter - 2*m` (m = 3) of the preamble buffer when
`preamble_counter ≥ 2*m` and discarded otherwise, `preamble_counter` is then
incremented, and the state transitions to RX_PAYLOAD exactly when
`preamble_counter` reaches `64 + 2*m`; when no symbol is available the
buffer, the counter and the state are untouched. -/
theorem C4_rxpreamble (ext : Oracle A) (q : Sync A) (x : A)
    (hst : q.state = FState.rxPreamble) (h : q.mfCounter = 0) :
    (framesync64_execute_rxpreamble ext q x).preambleRx =
      (if 2 * 3 ≤ q.preambleCounter then
         q.preambleRx.set (q.preambleCounter - 2 * 3) (stepSym ext q x)
       else q.preambleRx) ∧
    (framesync64_execute_rxpreamble ext q x).preambleCounter =
      q.preambleCounter + 1 ∧
    (framesync64_execute_rxpreamble ext q x).state =
      (if q.preambleCounter + 1 = 64 + 2 * 3 then FState.rxPayload
       else FState.rxPreamble) ∧
    ∀ (q2 : Sync A), q2.mfCounter ≠ 0 →
      (framesync64_execute_rxpreamble ext q2 x).preambleCounter =
          q2.preambleCounter ∧
      (framesync64_execute_rxpreamble ext q2 x).preambleRx = q2.preambleRx ∧
      (framesync64_execute_rxpreamble ext q2 x).state = q2.state := by
  refine ⟨?_, ?_, ?_, ?_⟩
  · rw [rxpre_some ext q x h]
  · rw [rxpre_some ext q x h]
  · rw [rxpre_some ext q x h]
    simp only [hst]
  · intro q2 hq
    rw [rxpre_none ext q2 x hq]
    exact ⟨rfl, rfl, rfl⟩

/-- Witness for C4 at a concrete receiver in mid-preamble. -/
theorem C4_rxpreamble_witness :
    syncPre.state = FState.rxPreamble ∧ syncPre.mfCounter = 0 ∧
    ((framesync64_execute_rxpreamble extU syncPre ()).preambleRx =
       (if 2 * 3 ≤ syncPre.preambleCounter then
          syncPre.preambleRx.set (syncPre.preambleCounter - 2 * 3)
            (stepSym extU syncPre ())
        else syncPre.preambleRx) ∧
     (framesync64_execute_rxpreamble extU syncPre ()).preambleCounter =
       syncPre.preambleCounter + 1 ∧
     (framesync64_execute_rxpreamble extU syncPre ()).state =
       (if syncPre.preambleCounter + 1 = 64 + 2 * 3 then FState.rxPayload
        else FState.rxPreamble) ∧
     ∀ (q2 : Sync Unit), q2.mfCounter ≠ 0 →
       (framesync64_execute_rxpreamble extU q2 ()).preambleCounter =
           q2.preambleCounter ∧
       (framesync64_execute_rxpreamble extU q2 ()).preambleRx = q2.preambleRx ∧
       (framesync64_execute_rxpreamble extU q2 ()).state = q2.state) :=
  ⟨by decide, by decide,
   C4_rxpreamble extU syncPre () (by decide) (by decide)⟩

/-! ### Reset and the end-of-frame dispatch (claim C2) -/

/-- C2 counterexample: a receiver reachable from `create` by two input
samples (detection on the first, first preamble symbol on the second) has
`mf_counter = 1`; calling `framesync64_reset` on it returns the state to
DETECT but leaves `mf_counter = 1`, contradicting the claim that after any
call to reset all three counters equal 0. -/
theorem C2_counterexample :
    (framesync64_execute extU syncInit (List.replicate 2 ())).1.state =
        FState.rxPreamble ∧
    (framesync64_reset
        (framesync64_execute extU syncInit (List.replicate 2 ())).1).state =
        FState.detect ∧
    ¬ (framesync64_reset
        (framesync64_execute extU syncInit (List.replicate 2 ())).1).mfCounter
        = 0 := by
  refine ⟨?_, ?_, ?_⟩ <;> decide

/-- C2 (amended): after any call to reset the state equals DETECT and
`preamble_counter` and `payload_counter` equal 0, but `mf_counter` is left
unchanged (the C source never clears it); after the end-of-frame callback
dispatch the state equals DETECT, `preamble_counter` and `payload_counter`
equal 0, and `mf_counter` equals 1. -/
theorem C2_reset_amended (ext : Oracle A) (q q2 : Sync A) (x : A)
    (_hst : q2.state = FState.rxPayload) (hmf : q2.mfCounter = 0)
    (hc : q2.payloadCounter = 629) :
    ((framesync64_reset q).state = FState.detect ∧
     (framesync64_reset q).preambleCounter = 0 ∧
     (framesync64_reset q).payloadCounter = 0 ∧
     (framesync64_reset q).mfCounter = q.mfCounter) ∧
    ((framesync64_execute_rxpayload ext q2 x).1.state = FState.detect ∧
     (framesync64_execute_rxpayload ext q2 x).1.preambleCounter = 0 ∧
     (framesync64_execute_rxpayload ext q2 x).1.payloadCounter = 0 ∧
     (framesync64_execute_rxpayload ext q2 x).1.mfCounter = 1) := by
  refine ⟨⟨rfl, rfl, rfl, rfl⟩, ?_⟩
  rw [rxpay_some_done ext q2 x hmf hc]
  simp [framesync64_reset]

/-- Witness for the amended C2 at a concrete receiver one symbol away from
the end of the frame. -/
theorem C2_reset_amended_witness :
    syncPay.state = FState.rxPayload ∧ syncPay.mfCounter = 0 ∧
    syncPay.payloadCounter = 629 ∧
    (((framesync64_reset syncInit).state = FState.detect ∧
      (framesync64_reset syncInit).preambleCounter = 0 ∧
      (framesync64_reset syncInit).payloadCounter = 0 ∧
      (framesync64_reset syncInit).mfCounter = syncInit.mfCounter) ∧
     ((framesync64_execute_rxpayload extU syncPay ()).1.state = FState.detect ∧
      (framesync64_execute_rxpayload extU syncPay ()).1.preambleCounter = 0 ∧
      (framesync64_execute_rxpayload extU syncPay ()).1.payloadCounter = 0 ∧
      (framesync64_execute_rxpayload extU syncPay ()).1.mfCounter = 1)) :=
  ⟨by decide, by decide, by decide,
   C2_reset_amended extU syncInit syncPay () (by decide) (by decide) (by decide)⟩

/-! ### Detection hand-off (claim C7) -/

/-- The RX_PREAMBLE and RX_PAYLOAD handlers never touch the four coarse
estimates, so within a frame they stay exactly as the hand-off wrote them. -/
theorem handlers_keep_estimates (ext : Oracle A) (q : Sync A) (x : A) :
    ((framesync64_execute_rxpreamble ext q x).tauHat = q.tauHat ∧
     (framesync64_execute_rxpreamble ext q x).gammaHat = q.gammaHat ∧
     (framesync64_execute_rxpreamble ext q x).dphiHat = q.dphiHat ∧
     (framesync64_execute_rxpreamble ext q x).phiHat = q.phiHat) ∧
    ((framesync64_execute_rxpayload ext q x).1.tauHat = q.tauHat ∧
     (framesync64_execute_rxpayload ext q x).1.gammaHat = q.gammaHat ∧
     (framesync64_execute_rxpayload ext q x).1.dphiHat = q.dphiHat ∧
     (framesync64_execute_rxpayload ext q x).1.phiHat = q.phiHat) := by
  constructor
  · by_cases hmf : q.mfCounter = 0
    · rw [rxpre_some ext q x hmf]; exact ⟨rfl, rfl, rfl, rfl⟩
    · rw [rxpre_none ext q x hmf]; exact ⟨rfl, rfl, rfl, rfl⟩
  · by_cases hmf : q.mfCounter = 0
    · by_cases hc : q.payloadCounter = 629
      · rw [rxpay_some_done ext q x hmf hc]
        simp [framesync64_reset]
      · by_cases hc1 : q.payloadCounter + 1 = 630
        · omega
        · rw [rxpay_some_mid ext q x hmf hc1]; exact ⟨rfl, rfl, rfl, rfl⟩
    · rw [rxpay_none ext q x hmf]; exact ⟨rfl, rfl, rfl, rfl⟩

/-- C7: on detection the four coarse estimates are copied from the detector,
the matched-filter amplitude scale is set to `0.5 / gamma_hat`, the
polyphase sub-filter index is set to 0 unconditionally (in particular also
when `tau_hat` is negative, since the estimate tuple is arbitrary here), the
NCO frequency and phase are set to `dphi_hat` and `phi_hat`, and the state
moves to RX_PREAMBLE; and the estimates are written nowhere else during the
frame — the preamble and payload handlers and a non-triggering detect sample
leave them unchanged, so they are written exactly once per frame, between
DETECT exit and the first RX_PREAMBLE sample. -/
theorem C7_handoff (ext : Oracle A) (q : Sync A) (x : A) (est : Est)
    (htrig : ext.detTrig (q.detector.push x).buf = some est) :
    ((seekpnHandoff ext q x).1.tauHat = est.tau ∧
     (seekpnHandoff ext q x).1.gammaHat = est.gamma ∧
     (seekpnHandoff ext q x).1.dphiHat = est.dphi ∧
     (seekpnHandoff ext q x).1.phiHat = est.phi) ∧
    (seekpnHandoff ext q x).1.mf.scale = (1 / 2 : ℚ) / est.gamma ∧
    (seekpnHandoff ext q x).1.pfbIndex = 0 ∧
    (seekpnHandoff ext q x).1.mixer.freq = est.dphi ∧
    (seekpnHandoff ext q x).1.mixer.phase = est.phi ∧
    (seekpnHandoff ext q x).1.state = FState.rxPreamble ∧
    (∀ (q2 : Sync A) (y : A),
       ((framesync64_execute_rxpreamble ext q2 y).tauHat = q2.tauHat ∧
        (framesync64_execute_rxpreamble ext q2 y).gammaHat = q2.gammaHat ∧
        (framesync64_execute_rxpreamble ext q2 y).dphiHat = q2.dphiHat ∧
        (framesync64_execute_rxpreamble ext q2 y).phiHat = q2.phiHat) ∧
       ((framesync64_execute_rxpayload ext q2 y).1.tauHat = q2.tauHat ∧
        (framesync64_execute_rxpayload ext q2 y).1.gammaHat = q2.gammaHat ∧
        (framesync64_execute_rxpayload ext q2 y).1.dphiHat = q2.dphiHat ∧
        (framesync64_execute_rxpayload ext q2 y).1.phiHat = q2.phiHat)) ∧
    (∀ (q2 : Sync A) (y : A),
       ext.detTrig (q2.detector.push y).buf = none →
       (seekpnHandoff ext q2 y).1.tauHat = q2.tauHat ∧
       (seekpnHandoff ext q2 y).1.gammaHat = q2.gammaHat ∧
       (seekpnHandoff ext q2 y).1.dphiHat = q2.dphiHat ∧
       (seekpnHandoff ext q2 y).1.phiHat = q2.phiHat) := by
  rw [seekpn_handoff_some ext q x est htrig]
  refine ⟨⟨rfl, rfl, rfl, rfl⟩, rfl, rfl, rfl, rfl, rfl, ?_, ?_⟩
  · intro q2 y
    exact handlers_keep_estimates ext q2 y
  · intro q2 y hnone
    rw [seekpn_handoff_none ext q2 y hnone]
    exact ⟨rfl, rfl, rfl, rfl⟩

/-- Witness for C7 at a concrete receiver whose detector reports a negative
`tau_hat`. -/
theorem C7_handoff_witness :
    extNeg.detTrig (syncInit.detector.push ()).buf = some estNeg ∧
    (((seekpnHandoff extNeg syncInit ()).1.tauHat = estNeg.tau ∧
      (seekpnHandoff extNeg syncInit ()).1.gammaHat = estNeg.gamma ∧
      (seekpnHandoff extNeg syncInit ()).1.dphiHat = estNeg.dphi ∧
      (seekpnHandoff extNeg syncInit ()).1.phiHat = estNeg.phi) ∧
     (seekpnHandoff extNeg syncInit ()).1.mf.scale = (1 / 2 : ℚ) / estNeg.gamma ∧
     (seekpnHandoff extNeg syncInit ()).1.pfbIndex = 0 ∧
     (seekpnHandoff extNeg syncInit ()).1.mixer.freq = estNeg.dphi ∧
     (seekpnHandoff extNeg syncInit ()).1.mixer.phase = estNeg.phi ∧
     (seekpnHandoff extNeg syncInit ()).1.state = FState.rxPreamble ∧
     (∀ (q2 : Sync Unit) (y : Unit),
        ((framesync64_execute_rxpreamble extNeg q2 y).tauHat = q2.tauHat ∧
         (framesync64_execute_rxpreamble extNeg q2 y).gammaHat = q2.gammaHat ∧
         (framesync64_execute_rxpreamble extNeg q2 y).dphiHat = q2.dphiHat ∧
         (framesync64_execute_rxpreamble extNeg q2 y).phiHat = q2.phiHat) ∧
        ((framesync64_execute_rxpayload extNeg q2 y).1.tauHat = q2.tauHat ∧
         (framesync64_execute_rxpayload extNeg q2 y).1.gammaHat = q2.gammaHat ∧
         (framesync64_execute_rxpayload extNeg q2 y).1.dphiHat = q2.dphiHat ∧
         (framesync64_execute_rxpayload extNeg q2 y).1.phiHat = q2.phiHat)) ∧
     (∀ (q2 : Sync Unit) (y : Unit),
        extNeg.detTrig (q2.detector.push y).buf = none →
        (seekpnHandoff extNeg q2 y).1.tauHat = q2.tauHat ∧
        (seekpnHandoff extNeg q2 y).1.gammaHat = q2.gammaHat ∧
        (seekpnHandoff extNeg q2 y).1.dphiHat = q2.dphiHat ∧
        (seekpnHandoff extNeg q2 y).1.phiHat = q2.phiHat)) :=
  ⟨rfl, C7_handoff extNeg syncInit () estNeg rfl⟩

/-! ### End-of-frame statistics and callback (claims C8 and C5) -/

/-- C8: for every completed frame (the 630th payload symbol arriving with a
non-NULL callback) the emitted event's statistics are populated with
`evm = 0`, `rssi = 20·log10(gamma_hat)`, `cfo` = the NCO's current
frequency, `framesyms` = the receiver's 600 recovered data symbols (of
length 600 under the pilot synchronizer's contract), `num_framesyms = 600`,
QPSK modulation with 2 bits/symbol, CRC-24 check, no outer FEC and
Golay(24,12) inner FEC; and exactly one callback fires. -/
theorem C8_stats (ext : Oracle A) (q : Sync A) (x : A)
    (hpil : ∀ l : List A, l.length = 630 → (ext.pilotsyncExec l).length = 600)
    (hlen : q.payloadRx.length = 630)
    (hmf : q.mfCounter = 0) (hc : q.payloadCounter = 629)
    (hcb : q.callbackSet = true) :
    (framesync64_execute_rxpayload ext q x).2.length = 1 ∧
    ∀ ev ∈ (framesync64_execute_rxpayload ext q x).2,
      ev.stats.evm = 0 ∧
      ev.stats.rssi = 20 * ext.log10 q.gammaHat ∧
      ev.stats.cfo = q.mixer.freq ∧
      ev.stats.framesyms = (framesync64_execute_rxpayload ext q x).1.payloadSym ∧
      ev.stats.framesyms.length = 600 ∧
      ev.stats.numFramesyms = 600 ∧
      ev.stats.modScheme = ModScheme.qpsk ∧
      ev.stats.modBps = 2 ∧
      ev.stats.check = CrcScheme.crc24 ∧
      ev.stats.fec0 = FecScheme.fecNone ∧
      ev.stats.fec1 = FecScheme.golay2412 := by
  rw [rxpay_some_done ext q x hmf hc]
  simp only [hcb, if_true]
  constructor
  · rfl
  · intro ev hev
    have hev1 : ev = finalEvent ext q x := by
      simpa using hev
    subst hev1
    have hlen600 : (ext.pilotsyncExec (finalPayloadRx ext q x)).length = 600 := by
      apply hpil
      simp [finalPayloadRx, hlen]
    refine ⟨rfl, rfl, rfl, ?_, ?_, rfl, rfl, rfl, rfl, rfl, rfl⟩
    · simp [finalEvent, finalStats, framesync64_reset]
    · simpa [finalEvent, finalStats] using hlen600

set_option maxRecDepth 4000 in
/-- Witness for C8 at a concrete receiver one symbol away from the end of
the frame. -/
theorem C8_stats_witness :
    (∀ l : List Unit, l.length = 630 → (extU.pilotsyncExec l).length = 600) ∧
    syncPay.payloadRx.length = 630 ∧ syncPay.mfCounter = 0 ∧
    syncPay.payloadCounter = 629 ∧ syncPay.callbackSet = true ∧
    ((framesync64_execute_rxpayload extU syncPay ()).2.length = 1 ∧
     ∀ ev ∈ (framesync64_execute_rxpayload extU syncPay ()).2,
       ev.stats.evm = 0 ∧
       ev.stats.rssi = 20 * extU.log10 syncPay.gammaHat ∧
       ev.stats.cfo = syncPay.mixer.freq ∧
       ev.stats.framesyms =
         (framesync64_execute_rxpayload extU syncPay ()).1.payloadSym ∧
       ev.stats.framesyms.length = 600 ∧
       ev.stats.numFramesyms = 600 ∧
       ev.stats.modScheme = ModScheme.qpsk ∧
       ev.stats.modBps = 2 ∧
       ev.stats.check = CrcScheme.crc24 ∧
       ev.stats.fec0 = FecScheme.fecNone ∧
       ev.stats.fec1 = FecScheme.golay2412) :=
  ⟨fun l _ => by simp only [extU, List.length_replicate], by decide, by decide,
   by decide, by decide,
   C8_stats extU syncPay () (fun l _ => by simp only [extU, List.length_replicate])
     (by decide) (by decide) (by decide) (by decide)⟩

/-- C5: exactly 630 payload symbols are accumulated before any decode and
no partial decode ever occurs — the decode results and event list are
untouched whenever the symbol counter has not reached 630; at the 630th
symbol the pilot synchronizer's 600 data symbols and the packet decoder's
72 bytes are produced, and (when the callback is non-NULL) one callback
fires with the first 8 decoded bytes as header, the last 64 as payload,
payload length 64, both validity flags carrying the same payload CRC
result; the receiver is reset to DETECT only after the event is formed from
the pre-reset receiver. -/
theorem C5_payload_decode (ext : Oracle A) (q : Sync A) (x : A)
    (hpil : ∀ l : List A, l.length = 630 → (ext.pilotsyncExec l).length = 600)
    (hdec : ∀ l : List A, (ext.decode l).1.length = 72)
    (hlen : q.payloadRx.length = 630)
    (hmf : q.mfCounter = 0) (hc : q.payloadCounter = 629) :
    (framesync64_execute_rxpayload ext q x).1.payloadSym =
      ext.pilotsyncExec (finalPayloadRx ext q x) ∧
    (framesync64_execute_rxpayload ext q x).1.payloadSym.length = 600 ∧
    (framesync64_execute_rxpayload ext q x).1.payloadDec =
      (ext.decode (ext.pilotsyncExec (finalPayloadRx ext q x))).1 ∧
    (framesync64_execute_rxpayload ext q x).1.payloadDec.length = 72 ∧
    (framesync64_execute_rxpayload ext q x).1.state = FState.detect ∧
    (q.callbackSet = true →
      (framesync64_execute_rxpayload ext q x).2 = [finalEvent ext q x] ∧
      (finalEvent ext q x).header =
        (ext.decode (ext.pilotsyncExec (finalPayloadRx ext q x))).1.take 8 ∧
      (finalEvent ext q x).header.length = 8 ∧
      (finalEvent ext q x).payload =
        (ext.decode (ext.pilotsyncExec (finalPayloadRx ext q x))).1.drop 8 ∧
      (finalEvent ext q x).payload.length = 64 ∧
      (finalEvent ext q x).payloadLen = 64 ∧
      (finalEvent ext q x).headerValid = (finalEvent ext q x).payloadValid ∧
      (finalEvent ext q x).payloadValid =
        (ext.decode (ext.pilotsyncExec (finalPayloadRx ext q x))).2) ∧
    (q.callbackSet = false → (framesync64_execute_rxpayload ext q x).2 = []) ∧
    (∀ (q2 : Sync A), q2.payloadCounter + 1 ≠ 630 →
      (framesync64_execute_rxpayload ext q2 x).1.payloadSym = q2.payloadSym ∧
      (framesync64_execute_rxpayload ext q2 x).1.payloadDec = q2.payloadDec ∧
      (framesync64_execute_rxpayload ext q2 x).1.payloadValid =
        q2.payloadValid ∧
      (framesync64_execute_rxpayload ext q2 x).2 = []) := by
  rw [rxpay_some_done ext q x hmf hc]
  have hlen600 : (ext.pilotsyncExec (finalPayloadRx ext q x)).length = 600 := by
    apply hpil
    simp [finalPayloadRx, hlen]
  have hlen72 := hdec (ext.pilotsyncExec (finalPayloadRx ext q x))
  refine ⟨?_, ?_, ?_, ?_, ?_, ?_, ?_, ?_⟩
  · simp [framesync64_reset]
  · simpa [framesync64_reset] using hlen600
  · simp [framesync64_reset]
  · simpa [framesync64_reset] using hlen72
  · simp [framesync64_reset]
  · intro hcb
    simp only [if_pos hcb]
    refine ⟨trivial, rfl, ?_, rfl, ?_, rfl, rfl, rfl⟩
    · simp [finalEvent, List.length_take, hlen72]
    · simp [finalEvent, List.length_drop, hlen72]
  · intro hcb
    simp [hcb]
  · intro q2 hc2
    by_cases hmf2 : q2.mfCounter = 0
    · rw [rxpay_some_mid ext q2 x hmf2 hc2]
      exact ⟨rfl, rfl, rfl, rfl⟩
    · rw [rxpay_none ext q2 x hmf2]
      exact ⟨rfl, rfl, rfl, rfl⟩

set_option maxRecDepth 4000 in
/-- Witness for C5 at a concrete receiver one symbol away from the end of
the frame. -/
theorem C5_payload_decode_witness :
    (∀ l : List Unit, l.length = 630 → (extU.pilotsyncExec l).length = 600) ∧
    (∀ l : List Unit, (extU.decode l).1.length = 72) ∧
    syncPay.payloadRx.length = 630 ∧ syncPay.mfCounter = 0 ∧
    syncPay.payloadCounter = 629 ∧
    ((framesync64_execute_rxpayload extU syncPay ()).1.payloadSym =
       extU.pilotsyncExec (finalPayloadRx extU syncPay ()) ∧
     (framesync64_execute_rxpayload extU syncPay ()).1.payloadSym.length = 600 ∧
     (framesync64_execute_rxpayload extU syncPay ()).1.payloadDec =
       (extU.decode (extU.pilotsyncExec (finalPayloadRx extU syncPay ()))).1 ∧
     (framesync64_execute_rxpayload extU syncPay ()).1.payloadDec.length = 72 ∧
     (framesync64_execute_rxpayload extU syncPay ()).1.state = FState.detect ∧
     (syncPay.callbackSet = true →
       (framesync64_execute_rxpayload extU syncPay ()).2 =
         [finalEvent extU syncPay ()] ∧
       (finalEvent extU syncPay ()).header =
         (extU.decode (extU.pilotsyncExec (finalPayloadRx extU syncPay ()))).1.take 8 ∧
       (finalEvent extU syncPay ()).header.length = 8 ∧
       (finalEvent extU syncPay ()).payload =
         (extU.decode (extU.pilotsyncExec (finalPayloadRx extU syncPay ()))).1.drop 8 ∧
       (finalEvent extU syncPay ()).payload.length = 64 ∧
       (finalEvent extU syncPay ()).payloadLen = 64 ∧
       (finalEvent extU syncPay ()).headerValid =
         (finalEvent extU syncPay ()).payloadValid ∧
       (finalEvent extU syncPay ()).payloadValid =
         (extU.decode (extU.pilotsyncExec (finalPayloadRx extU syncPay ()))).2) ∧
     (syncPay.callbackSet = false →
       (framesync64_execute_rxpayload extU syncPay ()).2 = []) ∧
     (∀ (q2 : Sync Unit), q2.payloadCounter + 1 ≠ 630 →
       (framesync64_execute_rxpayload extU q2 ()).1.payloadSym =
         q2.payloadSym ∧
       (framesync64_execute_rxpayload extU q2 ()).1.payloadDec =
         q2.payloadDec ∧
       (framesync64_execute_rxpayload extU q2 ()).1.payloadValid =
         q2.payloadValid ∧
       (framesync64_execute_rxpayload extU q2 ()).2 = [])) :=
  ⟨fun l _ => by simp only [extU, List.length_replicate],
   fun l => by simp only [extU, List.length_replicate],
   by decide, by decide, by decide,
   C5_payload_decode extU syncPay ()
     (fun l _ => by simp only [extU, List.length_replicate])
     (fun l => by simp only [extU, List.length_replicate])
     (by decide) (by decide) (by decide)⟩

/-! ### Projections of the debug-ring push -/

theorem windowPush_st (q : Sync A) (x : A) : (windowPush q x).state = q.state := by
  rw [windowPush_eq]

theorem windowPush_mfc (q : Sync A) (x : A) :
    (windowPush q x).mfCounter = q.mfCounter := by
  rw [windowPush_eq]

theorem windowPush_pc (q : Sync A) (x : A) :
    (windowPush q x).preambleCounter = q.preambleCounter := by
  rw [windowPush_eq]

theorem windowPush_payc (q : Sync A) (x : A) :
    (windowPush q x).payloadCounter = q.payloadCounter := by
  rw [windowPush_eq]

/-! ### The reachability invariant (claim C10) -/

theorem reachInv_reset (q : Sync A) : ReachInv (framesync64_reset q) := by
  simp [ReachInv, framesync64_reset]

theorem reachInv_create (u : Uninit A) (cb : Bool) (pn : List A)
    (cap wlen : Nat) : ReachInv (framesync64_create u cb pn cap wlen) :=
  reachInv_reset _

theorem reachInv_windowPush (q : Sync A) (x : A) (h : ReachInv q) :
    ReachInv (windowPush q x) := by
  simpa [ReachInv, windowPush_eq] using h

theorem reachInv_rxpre (ext : Oracle A) (p : Sync A) (x : A)
    (h : ReachInv p) (hst : p.state = FState.rxPreamble) :
    ReachInv (framesync64_execute_rxpreamble ext p x) := by
  obtain ⟨hpc, hpayc⟩ := h.2.1 hst
  by_cases hmf : p.mfCounter = 0
  · rw [rxpre_some ext p x hmf]
    by_cases h70 : p.preambleCounter + 1 = 64 + 2 * 3
    · refine ⟨?_, ?_, ?_⟩ <;> intro hs <;> simp [hst, h70] at hs ⊢ <;> omega
    · refine ⟨?_, ?_, ?_⟩ <;> intro hs <;> simp [hst, h70] at hs ⊢ <;> omega
  · rw [rxpre_none ext p x hmf]
    refine ⟨?_, ?_, ?_⟩ <;> intro hs <;> simp [hst] at hs ⊢ <;> omega

theorem reachInv_rxpay (ext : Oracle A) (p : Sync A) (x : A)
    (h : ReachInv p) (hst : p.state = FState.rxPayload) :
    ReachInv (framesync64_execute_rxpayload ext p x).1 := by
  obtain ⟨hpc, hpayc⟩ := h.2.2 hst
  by_cases hmf : p.mfCounter = 0
  · by_cases hc : p.payloadCounter = 629
    · rw [rxpay_some_done ext p x hmf hc]
      exact reachInv_reset _
    · have hc1 : p.payloadCounter + 1 ≠ 630 := by omega
      rw [rxpay_some_mid ext p x hmf hc1]
      refine ⟨?_, ?_, ?_⟩ <;> intro hs <;> simp [hst] at hs ⊢ <;> omega
  · rw [rxpay_none ext p x hmf]
    refine ⟨?_, ?_, ?_⟩ <;> intro hs <;> simp [hst] at hs ⊢ <;> omega

theorem reachInv_seekpn (ext : Oracle A) (p : Sync A) (x : A)
    (h : ReachInv p) (hst : p.state = FState.detect) :
    ReachInv (seekpnHandoff ext p x).1 := by
  obtain ⟨hpc, hpayc⟩ := h.1 hst
  rcases htr : ext.detTrig (p.detector.push x).buf with _ | est
  · rw [seekpn_handoff_none ext p x htr]
    refine ⟨?_, ?_, ?_⟩ <;> intro hs <;> simp [hst] at hs ⊢ <;> omega
  · rw [seekpn_handoff_some ext p x est htr]
    refine ⟨?_, ?_, ?_⟩ <;> intro hs <;> simp [hst] at hs ⊢ <;> omega

theorem reachInv_dispatch0 (ext : Oracle A) (q : Sync A) (x : A)
    (h : ReachInv q) : ReachInv (dispatch0 ext q x).1 := by
  have hw := reachInv_windowPush q x h
  cases hst : q.state with
  | detect =>
    rw [dispatch0_detect ext q x hst]
    exact reachInv_seekpn ext (windowPush q x) x hw (by rw [windowPush_st, hst])
  | rxPreamble =>
    rw [dispatch0_rxpre ext q x hst]
    exact reachInv_rxpre ext (windowPush q x) x hw (by rw [windowPush_st, hst])
  | rxPayload =>
    rw [dispatch0_rxpay ext q x hst]
    exact reachInv_rxpay ext (windowPush q x) x hw (by rw [windowPush_st, hst])

theorem reachInv_run0 (ext : Oracle A) (xs : List A) :
    ∀ q : Sync A, ReachInv q → ReachInv (run0 ext q xs).1 := by
  induction xs with
  | nil => intro q h; exact h
  | cons x xs ih =>
    intro q h
    exact ih (dispatch0 ext q x).1 (reachInv_dispatch0 ext q x h)

theorem reachInv_dispatch1 (ext : Oracle A) (q : Sync A) (x : A)
    (h : ReachInv q) : ReachInv (dispatch1 ext q x).1 := by
  obtain ⟨ys, hy⟩ := dispatch1_eq_run0 ext q x
  rw [hy]
  exact reachInv_run0 ext (x :: ys) q h

theorem reachInv_execute (ext : Oracle A) (xs : List A) :
    ∀ q : Sync A, ReachInv q → ReachInv (framesync64_execute ext q xs).1 := by
  induction xs with
  | nil => intro q h; exact h
  | cons x xs ih =>
    intro q h
    exact ih (dispatch1 ext q x).1 (reachInv_dispatch1 ext q x h)

/-- C10: in every state reachable from create or reset the counters satisfy
`ReachInv`, so all internal buffer writes are in bounds: in RX_PREAMBLE the
store index `preamble_counter - 2*m` lies below 64 whenever a write occurs
(`preamble_counter ≥ 2*m`), in RX_PAYLOAD the store index `payload_counter`
lies below 630, and the fatal unknown-state branch of the execute dispatch
is unreachable (the state always is one of the three known values). -/
theorem C10_buffer_bounds :
    (∀ (u : Uninit A) (cb : Bool) (pn : List A) (cap wlen : Nat),
       ReachInv (framesync64_create u cb pn cap wlen)) ∧
    (∀ q : Sync A, ReachInv (framesync64_reset q)) ∧
    (∀ (ext : Oracle A) (q : Sync A) (x : A),
       ReachInv q → ReachInv (dispatch1 ext q x).1) ∧
    (∀ (ext : Oracle A) (q : Sync A) (xs : List A),
       ReachInv q → ReachInv (framesync64_execute ext q xs).1) ∧
    (∀ q : Sync A, ReachInv q → q.state = FState.rxPreamble →
       2 * 3 ≤ q.preambleCounter → q.preambleCounter - 2 * 3 < 64) ∧
    (∀ q : Sync A, ReachInv q → q.state = FState.rxPayload →
       q.payloadCounter < 630) ∧
    (∀ q : Sync A,
       q.state = FState.detect ∨ q.state = FState.rxPreamble ∨
         q.state = FState.rxPayload) := by
  refine ⟨reachInv_create, reachInv_reset, reachInv_dispatch1,
    fun ext q xs h => reachInv_execute ext xs q h, ?_, ?_, ?_⟩
  · intro q h hst h6
    obtain ⟨hpc, _⟩ := h.2.1 hst
    omega
  · intro q h hst
    exact (h.2.2 hst).2
  · intro q
    cases hq : q.state
    · exact Or.inl rfl
    · exact Or.inr (Or.inl rfl)
    · exact Or.inr (Or.inr rfl)

/-- Witness for C10: the invariant holds at a freshly created receiver and
is transported across a concrete three-sample execution, and the bounds
hold at concrete mid-preamble and mid-payload receivers. -/
theorem C10_buffer_bounds_witness :
    ReachInv syncInit ∧
    ReachInv (framesync64_execute extU syncInit (List.replicate 3 ())).1 ∧
    (ReachInv syncPre ∧ syncPre.state = FState.rxPreamble ∧
     2 * 3 ≤ syncPre.preambleCounter ∧
     syncPre.preambleCounter - 2 * 3 < 64) ∧
    (ReachInv syncPay ∧ syncPay.state = FState.rxPayload ∧
     syncPay.payloadCounter < 630) :=
  ⟨by unfold ReachInv; decide,
   (C10_buffer_bounds.2.2.2.1) extU syncInit (List.replicate 3 ())
     (by unfold ReachInv; decide),
   ⟨by unfold ReachInv; decide, by decide, by decide,
    (C10_buffer_bounds.2.2.2.2.1) syncPre (by unfold ReachInv; decide)
      (by decide) (by decide)⟩,
   ⟨by unfold ReachInv; decide, by decide,
    (C10_buffer_bounds.2.2.2.2.2.1) syncPay (by unfold ReachInv; decide)
      (by decide)⟩⟩

/-! ### The replay of detector-buffered samples (claim C6) -/

theorem ndInv_rxpre (ext : Oracle A) (p : Sync A) (x : A) (n : Nat)
    (h : NDInv p n) (hst : p.state = FState.rxPreamble) :
    NDInv (framesync64_execute_rxpreamble ext p x) (n + 1) := by
  obtain ⟨hnd, hpay0, hb⟩ := h
  have hpayc : p.payloadCounter = 0 := hpay0 hst
  by_cases hmf : p.mfCounter = 0
  · rw [if_pos hmf] at hb
    have hb1 : 2 * p.preambleCounter ≤ n := by simpa [prog, hst] using hb
    rw [rxpre_some ext p x hmf]
    by_cases h70 : p.preambleCounter + 1 = 64 + 2 * 3
    · refine ⟨?_, ?_, ?_⟩
      · simp [NDInv, h70]
      · intro hs; simp [h70] at hs
      · simp [prog, h70, hpayc]
        omega
    · refine ⟨?_, ?_, ?_⟩
      · simp [NDInv, h70, hst]
      · intro _; simpa using hpayc
      · simp [prog, h70, hst]
        omega
  · rw [if_neg hmf] at hb
    have hb1 : 2 * p.preambleCounter ≤ n + 1 := by simpa [prog, hst] using hb
    rw [rxpre_none ext p x hmf]
    refine ⟨?_, ?_, ?_⟩
    · simpa [hst] using hnd
    · intro _; simpa using hpayc
    · simp [prog, hst]
      split <;> omega

theorem ndInv_rxpay (ext : Oracle A) (p : Sync A) (x : A) (n : Nat)
    (h : NDInv p n) (hst : p.state = FState.rxPayload) (hn : n + 1 ≤ 1398) :
    NDInv (framesync64_execute_rxpayload ext p x).1 (n + 1) := by
  obtain ⟨hnd, hpay0, hb⟩ := h
  by_cases hmf : p.mfCounter = 0
  · rw [if_pos hmf] at hb
    have hb1 : 2 * (70 + p.payloadCounter) ≤ n := by simpa [prog, hst] using hb
    by_cases hc : p.payloadCounter = 629
    · exact absurd hb1 (by omega)
    · rw [rxpay_some_mid ext p x hmf (by omega)]
      refine ⟨?_, ?_, ?_⟩
      · simp [hst]
      · intro hs; simp [hst] at hs
      · simp [prog, hst]
        omega
  · rw [if_neg hmf] at hb
    have hb1 : 2 * (70 + p.payloadCounter) ≤ n + 1 := by simpa [prog, hst] using hb
    rw [rxpay_none ext p x hmf]
    refine ⟨?_, ?_, ?_⟩
    · simp [hst]
    · intro hs; simp [hst] at hs
    · simp [prog, hst]
      split <;> omega

theorem ndInv_windowPush (q : Sync A) (x : A) (n : Nat) (h : NDInv q n) :
    NDInv (windowPush q x) n := by
  simpa [NDInv, prog, windowPush_eq] using h

theorem ndInv_dispatch0 (ext : Oracle A) (q : Sync A) (x : A) (n : Nat)
    (h : NDInv q n) (hn : n + 1 ≤ 1398) :
    NDInv (dispatch0 ext q x).1 (n + 1) := by
  have hw : NDInv (windowPush q x) n := ndInv_windowPush q x n h
  cases hst : q.state with
  | detect => exact absurd hst h.1
  | rxPreamble =>
    rw [dispatch0_rxpre ext q x hst]
    exact ndInv_rxpre ext (windowPush q x) x n hw (by rw [windowPush_st, hst])
  | rxPayload =>
    rw [dispatch0_rxpay ext q x hst]
    exact ndInv_rxpay ext (windowPush q x) x n hw (by rw [windowPush_st, hst]) hn

theorem ndInv_run0 (ext : Oracle A) (xs : List A) :
    ∀ (q : Sync A) (n : Nat), NDInv q n → n + xs.length ≤ 1398 →
      NDInv (run0 ext q xs).1 (n + xs.length) := by
  induction xs with
  | nil => intro q n h _; simpa [run0] using h
  | cons x xs ih =>
    intro q n h hn
    have hlen : n + (x :: xs).length = (n + 1) + xs.length := by
      simp; omega
    have h1 : NDInv (dispatch0 ext q x).1 (n + 1) :=
      ndInv_dispatch0 ext q x n h (by simp at hn; omega)
    have h2 := ih (dispatch0 ext q x).1 (n + 1) h1 (by simp at hn ⊢; omega)
    rw [hlen]
    simpa [run0] using h2

/-- C6: when the detector triggers on a sample, the buffered samples it
hands back are replayed through the execute path after the state has
already been set to RX_PREAMBLE: processing `x :: rest` equals the hand-off
on `x`, then the replay of exactly the detector buffer in its original
order, then the remaining caller input — so no buffered sample is lost or
reordered; and throughout the replay (every prefix of the buffer, whose
length is below the 1399 samples a full frame needs) the state is never
DETECT, so the recursive execute call never re-enters the DETECT handler
and the recursion depth is bounded by one. -/
theorem C6_replay_bounded (ext : Oracle A) (q : Sync A) (x : A) (est : Est)
    (hst : q.state = FState.detect) (hpc : q.preambleCounter = 0)
    (hpay : q.payloadCounter = 0)
    (htrig : ext.detTrig ((windowPush q x).detector.push x).buf = some est)
    (hlen : ((windowPush q x).detector.push x).buf.length ≤ 1398) :
    (∀ rest : List A,
       framesync64_execute ext q (x :: rest) =
         ((framesync64_execute ext
             (run0 ext (seekpnHandoff ext (windowPush q x) x).1
                (seekpnHandoff ext (windowPush q x) x).2).1 rest).1,
          (run0 ext (seekpnHandoff ext (windowPush q x) x).1
             (seekpnHandoff ext (windowPush q x) x).2).2 ++
            (framesync64_execute ext
               (run0 ext (seekpnHandoff ext (windowPush q x) x).1
                  (seekpnHandoff ext (windowPush q x) x).2).1 rest).2)) ∧
    (seekpnHandoff ext (windowPush q x) x).2 =
      ((windowPush q x).detector.push x).buf ∧
    (seekpnHandoff ext (windowPush q x) x).1.state = FState.rxPreamble ∧
    (∀ n : Nat,
       (run0 ext (seekpnHandoff ext (windowPush q x) x).1
          (((windowPush q x).detector.push x).buf.take n)).1.state ≠
         FState.detect) := by
  have hq1 : NDInv (seekpnHandoff ext (windowPush q x) x).1 0 := by
    rw [seekpn_handoff_some ext (windowPush q x) x est htrig]
    refine ⟨by simp, ?_, ?_⟩
    · intro _
      simpa [windowPush_eq] using hpay
    · simp [prog, windowPush_eq, hpc]
  refine ⟨?_, ?_, ?_, ?_⟩
  · intro rest
    simp only [framesync64_execute]
    rw [dispatch1_detect ext q x hst]
    simp only [framesync64_execute_seekpn]
  · rw [seekpn_handoff_some ext (windowPush q x) x est htrig]
  · rw [seekpn_handoff_some ext (windowPush q x) x est htrig]
  · intro n
    have hlen2 :
        0 + (((windowPush q x).detector.push x).buf.take n).length ≤ 1398 := by
      simp only [List.length_take, Nat.zero_add]
      omega
    exact (ndInv_run0 ext (((windowPush q x).detector.push x).buf.take n)
      (seekpnHandoff ext (windowPush q x) x).1 0 hq1 hlen2).1

/-- Witness for C6 at a freshly created concrete receiver whose detector
triggers on the first sample. -/
theorem C6_replay_bounded_witness :
    syncInit.state = FState.detect ∧ syncInit.preambleCounter = 0 ∧
    syncInit.payloadCounter = 0 ∧
    extU.detTrig ((windowPush syncInit ()).detector.push ()).buf = some estU ∧
    ((windowPush syncInit ()).detector.push ()).buf.length ≤ 1398 ∧
    ((∀ rest : List Unit,
        framesync64_execute extU syncInit (() :: rest) =
          ((framesync64_execute extU
              (run0 extU (seekpnHandoff extU (windowPush syncInit ()) ()).1
                 (seekpnHandoff extU (windowPush syncInit ()) ()).2).1 rest).1,
           (run0 extU (seekpnHandoff extU (windowPush syncInit ()) ()).1
              (seekpnHandoff extU (windowPush syncInit ()) ()).2).2 ++
             (framesync64_execute extU
                (run0 extU (seekpnHandoff extU (windowPush syncInit ()) ()).1
                   (seekpnHandoff extU (windowPush syncInit ()) ()).2).1
                rest).2)) ∧
     (seekpnHandoff extU (windowPush syncInit ()) ()).2 =
       ((windowPush syncInit ()).detector.push ()).buf ∧
     (seekpnHandoff extU (windowPush syncInit ()) ()).1.state =
       FState.rxPreamble ∧
     (∀ n : Nat,
        (run0 extU (seekpnHandoff extU (windowPush syncInit ()) ()).1
           (((windowPush syncInit ()).detector.push ()).buf.take n)).1.state ≠
          FState.detect)) :=
  ⟨by decide, by decide, by decide, rfl, by decide,
   C6_replay_bounded extU syncInit () estU (by decide) (by decide) (by decide)
     rfl (by decide)⟩
